import Mathlib

/-!
Verification of the Mission-Monitor task tracker core (src/script.js).

The JavaScript core is shallowly embedded: the persisted document becomes
an explicit `Data` state threaded through each operation, wall-clock
instants become `Instant` (calendar day number plus minute of day),
task/badge records become structures, and each `StorageManager` /
`AuthManager` / `BadgeManager` / `NotificationManager` method becomes a
pure Lean function with the same name.
-/

namespace MissionMonitor

/-- An instant of local time: a calendar day number (days since the epoch)
and a minute within that day.  JavaScript `Date` values are modelled at
minute granularity, which is the granularity of task `startTime` fields. -/
structure Instant where
  day : Int
  minute : Nat
  deriving DecidableEq, Repr

/-- The instant as an absolute number of minutes since the epoch,
used for comparing instants and subtracting reminder offsets. -/
def Instant.toMin (i : Instant) : Int := i.day * 1440 + i.minute

/-- The hour-of-day of an instant, as JavaScript `Date.getHours()`. -/
def Instant.hour (i : Instant) : Nat := i.minute / 60

/-- The weekday of a day number, as JavaScript `Date.getDay()`
(0 = Sunday .. 6 = Saturday; epoch day 0 is a Thursday, weekday 4). -/
def weekday (d : Int) : Int := Int.emod (d + 4) 7

/-- A task record as stored in `data.tasks` (src/script.js `addTask`).
`date` is the calendar day of the task, `startTime`/`endTime` are minutes
within that day. -/
structure Task where
  id : String
  userId : Option String := none
  title : String := ""
  description : String := ""
  priority : String := "medium"
  date : Int := 0
  startTime : Nat := 0
  endTime : Nat := 0
  completed : Bool := false
  createdAt : Instant := ⟨0, 0⟩
  completedAt : Option Instant := none
  deriving DecidableEq, Repr

/-- A badge record as stored in `data.badges` (src/script.js `addBadge`). -/
structure Badge where
  id : String
  title : String := ""
  description : String := ""
  icon : String := ""
  category : String := ""
  userId : Option String := none
  earnedAt : Instant := ⟨0, 0⟩
  deriving DecidableEq, Repr

/-- A user record as stored in `data.users` (src/script.js `addUser`).
`passwordHash` holds the integer computed by `hashPassword` (the source
stores its decimal string; integer-to-decimal-string is injective, so the
integer is kept directly). -/
structure User where
  username : String
  displayName : String
  passwordHash : Int
  createdAt : Instant
  deriving DecidableEq, Repr

/-- The `settings` member of the persisted document. -/
structure Settings where
  theme : String := "light"
  notifications : Bool := true
  deriving DecidableEq, Repr

/-- The persisted document: `{users, currentUser, tasks, badges, settings}`.
`users` is the username-keyed object, modelled as an association list. -/
structure Data where
  users : List (String × User) := []
  currentUser : Option String := none
  tasks : List Task := []
  badges : List Badge := []
  settings : Settings := {}
  deriving DecidableEq, Repr

/-- The task fields read from the add-task form and passed to `addTask`. -/
structure TaskInput where
  title : String := ""
  description : String := ""
  priority : String := "medium"
  date : Int := 0
  startTime : Nat := 0
  endTime : Nat := 0
  deriving DecidableEq, Repr

/-- A partial-field update object as passed to `updateTask`; a `some`
field is present in the update and replaces the stored field. -/
structure TaskUpdates where
  title : Option String := none
  description : Option String := none
  priority : Option String := none
  date : Option Int := none
  startTime : Option Nat := none
  endTime : Option Nat := none
  completed : Option Bool := none
  completedAt : Option Instant := none
  deriving DecidableEq, Repr

/-- The JavaScript object spread `{...task, ...updates}`. -/
def applyUpdates (t : Task) (u : TaskUpdates) : Task :=
  { t with
    title := u.title.getD t.title
    description := u.description.getD t.description
    priority := u.priority.getD t.priority
    date := u.date.getD t.date
    startTime := u.startTime.getD t.startTime
    endTime := u.endTime.getD t.endTime
    completed := u.completed.getD t.completed
    completedAt := match u.completedAt with
      | some c => some c
      | none => t.completedAt }

/-- StorageManager.getUser: `data.users[username] || null`. -/
def getUser (d : Data) (username : String) : Option User :=
  (d.users.find? (fun p => p.1 == username)).map Prod.snd

/-- StorageManager.addUser: refuse an existing username, otherwise store
the record with `createdAt = now`. -/
def addUser (d : Data) (username displayName : String) (passwordHash : Int)
    (now : Instant) : Data × Bool :=
  if (getUser d username).isSome then (d, false)
  else
    ({ d with users := d.users ++
        [(username, { username := username, displayName := displayName,
                      passwordHash := passwordHash, createdAt := now })] },
     true)

/-- StorageManager.setCurrentUser (also used by `logout` with `null`). -/
def setCurrentUser (d : Data) (u : Option String) : Data :=
  { d with currentUser := u }

/-- StorageManager.addTask: stamp a generated id, the active user, the
creation instant and `completed = false`, then append.  The generated id
(`generateId()`, wall-clock plus randomness) is passed in as `newId`. -/
def addTask (d : Data) (input : TaskInput) (newId : String) (now : Instant) :
    Data × Task :=
  let newTask : Task :=
    { id := newId, userId := d.currentUser, title := input.title,
      description := input.description, priority := input.priority,
      date := input.date, startTime := input.startTime,
      endTime := input.endTime, completed := false, createdAt := now }
  ({ d with tasks := d.tasks ++ [newTask] }, newTask)

/-- StorageManager.getTasks: tasks of the active user, in storage order. -/
def getTasks (d : Data) : List Task :=
  d.tasks.filter (fun t => t.userId == d.currentUser)

/-- Replace the first list element satisfying `p` by its image under `f`,
as `findIndex` followed by in-place assignment does; `none` if no match. -/
def updateFirst (p : Task → Bool) (f : Task → Task) :
    List Task → Option (List Task × Task)
  | [] => none
  | t :: ts =>
    if p t then some (f t :: ts, f t)
    else
      match updateFirst p f ts with
      | some (ts', t') => some (t :: ts', t')
      | none => none

/-- StorageManager.updateTask: merge `updates` into the first task whose
id matches, returning the updated task, or `null` when the id is absent. -/
def updateTask (d : Data) (taskId : String) (updates : TaskUpdates) :
    Data × Option Task :=
  match updateFirst (fun t => t.id == taskId) (fun t => applyUpdates t updates)
      d.tasks with
  | some (ts, t') => ({ d with tasks := ts }, some t')
  | none => (d, none)

/-- StorageManager.completeTask:
`updateTask(taskId, {completed: true, completedAt: now})`. -/
def completeTask (d : Data) (taskId : String) (now : Instant) :
    Data × Option Task :=
  updateTask d taskId { completed := some true, completedAt := some now }

/-- StorageManager.addBadge: refuse when a badge with the same id already
exists for the active user, otherwise append the badge stamped with the
active user and `earnedAt = now`. -/
def addBadge (d : Data) (badge : Badge) (now : Instant) : Data × Option Badge :=
  if (d.badges.find? (fun b => b.id == badge.id && b.userId == d.currentUser)).isSome
  then (d, none)
  else
    let newBadge := { badge with userId := d.currentUser, earnedAt := now }
    ({ d with badges := d.badges ++ [newBadge] }, some newBadge)

/-- StorageManager.getBadges: badges of the active user. -/
def getBadges (d : Data) : List Badge :=
  d.badges.filter (fun b => b.userId == d.currentUser)

/-- The record returned by StorageManager.getTaskStats. -/
structure TaskStats where
  total : Nat
  completed : Nat
  pending : Nat
  completedTasks : Nat
  todayTotal : Nat
  todayCompleted : Nat
  todayPending : Nat
  high : Nat
  medium : Nat
  low : Nat
  deriving DecidableEq, Repr

/-- StorageManager.getTaskStats, with "today" taken from `now`. -/
def getTaskStats (d : Data) (now : Instant) : TaskStats :=
  let tasks := getTasks d
  let todayTasks := tasks.filter (fun t => t.date == now.day)
  let completedL := tasks.filter (fun t => t.completed)
  let pendingL := tasks.filter (fun t => !t.completed)
  { total := tasks.length
    completed := completedL.length
    pending := pendingL.length
    completedTasks := completedL.length
    todayTotal := todayTasks.length
    todayCompleted := (todayTasks.filter (fun t => t.completed)).length
    todayPending := (todayTasks.filter (fun t => !t.completed)).length
    high := (tasks.filter (fun t => t.priority == "high")).length
    medium := (tasks.filter (fun t => t.priority == "medium")).length
    low := (tasks.filter (fun t => t.priority == "low")).length }

/-- BadgeManager.checkCompletionStreak, loop body: scan one day, then the
previous one, carrying the remaining iteration budget (`fuel`) and the
running `streak` counter.  An empty day is skipped; a fully completed day
increments the counter and succeeds once it reaches `requiredDays`; a day
with an incomplete task stops the scan with `false`. -/
def streakLoop (tasks : List Task) (requiredDays : Nat) :
    Int → Nat → Nat → Bool
  | _, 0, _ => false
  | d, fuel + 1, streak =>
    let dayTasks := tasks.filter (fun t => t.date == d)
    if dayTasks.isEmpty then streakLoop tasks requiredDays (d - 1) fuel streak
    else if dayTasks.all (fun t => t.completed) then
      if requiredDays ≤ streak + 1 then true
      else streakLoop tasks requiredDays (d - 1) fuel (streak + 1)
    else false

/-- BadgeManager.checkCompletionStreak: walk backward from `today` for up
to 365 calendar days. -/
def checkCompletionStreak (tasks : List Task) (requiredDays : Nat)
    (today : Int) : Bool :=
  streakLoop tasks requiredDays today 365 0

/-- The number of fully completed days encountered when scanning backward
from day `d` with `fuel` days of budget, stopping at the first day holding
an incomplete task; empty days are neutral.  This is the specification-side
counterpart used to characterise `checkCompletionStreak`. -/
def streakRun (tasks : List Task) : Int → Nat → Nat
  | _, 0 => 0
  | d, fuel + 1 =>
    let dayTasks := tasks.filter (fun t => t.date == d)
    if dayTasks.isEmpty then streakRun tasks (d - 1) fuel
    else if dayTasks.all (fun t => t.completed) then
      streakRun tasks (d - 1) fuel + 1
    else 0

/-- A catalog entry of BadgeManager.badgeDefinitions; `condition` receives
the statistics, the user's task list and the evaluation instant (the
source conditions read `new Date()` internally). -/
structure BadgeDef where
  id : String
  title : String
  description : String
  icon : String
  category : String
  condition : TaskStats → List Task → Instant → Bool

/-- The badge record built from a catalog entry (`{...badgeDefinition}`).
`userId` and `earnedAt` are stamped later by `addBadge`. -/
def BadgeDef.toBadge (bd : BadgeDef) : Badge :=
  { id := bd.id, title := bd.title, description := bd.description,
    icon := bd.icon, category := bd.category }

/-- Catalog entry `firstTask`. -/
def firstTaskDef : BadgeDef :=
  { id := "firstTask", title := "Getting Started",
    description := "Complete your first task", icon := "🎯",
    category := "milestone",
    condition := fun stats _ _ => decide (1 ≤ stats.completedTasks) }

/-- Catalog entry `dailyCompletion`. -/
def dailyCompletionDef : BadgeDef :=
  { id := "dailyCompletion", title := "Daily Champion",
    description := "Complete all tasks in a single day", icon := "🏆",
    category := "daily",
    condition := fun _ tasks now =>
      let todayTasks := tasks.filter (fun t => t.date == now.day)
      !todayTasks.isEmpty && todayTasks.all (fun t => t.completed) }

/-- Catalog entry `streak3`. -/
def streak3Def : BadgeDef :=
  { id := "streak3", title := "On Fire",
    description := "Complete all tasks for 3 consecutive days", icon := "🔥",
    category := "streak",
    condition := fun _ tasks now => checkCompletionStreak tasks 3 now.day }

/-- Catalog entry `streak7`. -/
def streak7Def : BadgeDef :=
  { id := "streak7", title := "Unstoppable",
    description := "Complete all tasks for 7 consecutive days", icon := "⚡",
    category := "streak",
    condition := fun _ tasks now => checkCompletionStreak tasks 7 now.day }

/-- Catalog entry `earlyBird`. -/
def earlyBirdDef : BadgeDef :=
  { id := "earlyBird", title := "Early Bird",
    description := "Complete a task before 7 AM", icon := "🐦",
    category := "time",
    condition := fun _ tasks _ =>
      tasks.any (fun t =>
        t.completed &&
          (match t.completedAt with
           | some c => decide (c.hour < 7)
           | none => false)) }

/-- Catalog entry `nightOwl`. -/
def nightOwlDef : BadgeDef :=
  { id := "nightOwl", title := "Night Owl",
    description := "Complete a task after 10 PM", icon := "🦉",
    category := "time",
    condition := fun _ tasks _ =>
      tasks.any (fun t =>
        t.completed &&
          (match t.completedAt with
           | some c => decide (22 ≤ c.hour)
           | none => false)) }

/-- Catalog entry `taskMaster`. -/
def taskMasterDef : BadgeDef :=
  { id := "taskMaster", title := "Task Master",
    description := "Complete 50 tasks total", icon := "🎓",
    category := "milestone",
    condition := fun stats _ _ => decide (50 ≤ stats.completedTasks) }

/-- Catalog entry `prioritizer`. -/
def prioritizerDef : BadgeDef :=
  { id := "prioritizer", title := "Priority Master",
    description := "Complete 10 high-priority tasks", icon := "🎭",
    category := "priority",
    condition := fun _ tasks _ =>
      decide (10 ≤
        (tasks.filter (fun t => t.completed && t.priority == "high")).length) }

/-- Catalog entry `organizer`. -/
def organizerDef : BadgeDef :=
  { id := "organizer", title := "Super Organizer",
    description := "Have 20 tasks scheduled in advance", icon := "📋",
    category := "planning",
    condition := fun _ tasks now =>
      decide (20 ≤ (tasks.filter (fun t => decide (now.day < t.date))).length) }

/-- Catalog entry `weekendWarrior`. -/
def weekendWarriorDef : BadgeDef :=
  { id := "weekendWarrior", title := "Weekend Warrior",
    description := "Complete tasks on both Saturday and Sunday", icon := "🏋️",
    category := "weekend",
    condition := fun _ tasks _ =>
      let weekendTasks := tasks.filter (fun t =>
        (weekday t.date == 6 || weekday t.date == 0) && t.completed)
      (weekendTasks.any (fun t => weekday t.date == 6)) &&
        (weekendTasks.any (fun t => weekday t.date == 0)) }

/-- BadgeManager.badgeDefinitions, in object-insertion order
(the order `Object.values` enumerates). -/
def badgeDefinitions : List BadgeDef :=
  [firstTaskDef, dailyCompletionDef, streak3Def, streak7Def, earlyBirdDef,
   nightOwlDef, taskMasterDef, prioritizerDef, organizerDef,
   weekendWarriorDef]

/-- BadgeManager.awardBadge: stamp `earnedAt` and hand the badge to
`addBadge` (which silently refuses duplicates per (id, user)). -/
def awardBadge (d : Data) (bd : BadgeDef) (now : Instant) : Data :=
  (addBadge d bd.toBadge now).1

/-- BadgeManager.checkAllBadges: the tasks, statistics and already-earned
ids are read once up front; every definition whose id is not yet earned
and whose condition holds is awarded in catalog order. -/
def checkAllBadges (d : Data) (now : Instant) : Data :=
  let tasks := getTasks d
  let stats := getTaskStats d now
  let currentBadgeIds := (getBadges d).map (fun b => b.id)
  badgeDefinitions.foldl
    (fun acc bd =>
      if currentBadgeIds.contains bd.id then acc
      else if bd.condition stats tasks now then awardBadge acc bd now
      else acc)
    d

/-- BadgeManager.checkDailyCompletionBadge: when every task dated today is
completed (and at least one exists) and the user holds no `dailyCompletion`
badge earned on today's calendar date, award the daily badge. -/
def checkDailyCompletionBadge (d : Data) (now : Instant) : Data :=
  let tasks := getTasks d
  let today := now.day
  let todayTasks := tasks.filter (fun t => t.date == today)
  if !todayTasks.isEmpty && todayTasks.all (fun t => t.completed) then
    let currentBadges := getBadges d
    let todayBadge := currentBadges.find? (fun b =>
      b.id == "dailyCompletion" && b.earnedAt.day == today)
    if todayBadge.isSome then d
    else awardBadge d dailyCompletionDef now
  else d

/-- The error taxonomy of §7 of the design; each constructor carries the
message thrown at the corresponding source site. -/
inductive AppError where
  | validation (msg : String)
  | conflict (msg : String)
  | auth (msg : String)
  | storageFailure (msg : String)
  deriving DecidableEq, Repr

/-- Whether an error is a `ValidationError`. -/
def AppError.isValidationErr : AppError → Bool
  | .validation _ => true
  | _ => false

/-- Whether an error is a `ConflictError`. -/
def AppError.isConflictErr : AppError → Bool
  | .conflict _ => true
  | _ => false

/-- Truncation to a 32-bit signed integer, as the JavaScript `| 0` /
`& hash` coercion (`ToInt32`). -/
def toInt32 (n : Int) : Int :=
  Int.emod (n + 2147483648) 4294967296 - 2147483648

/-- AuthManager.hashPassword: `hash = ((hash << 5) - hash) + char`
followed by `hash = hash & hash`, over the character codes, starting from
0.  The source returns the decimal string of the final value; the integer
itself is kept (decimal rendering is injective). -/
def hashPassword (s : String) : Int :=
  s.data.foldl (fun h c => toInt32 (toInt32 (h * 32) - h + c.toNat)) 0

/-- AuthManager.login.  A thrown error is modelled as the unchanged
document paired with the error; success updates the session. -/
def login (d : Data) (username password : String) : Data × Option AppError :=
  if username == "" || password == "" then
    (d, some (.validation "Username and password are required"))
  else
    match getUser d username with
    | none => (d, some (.auth "Invalid username or password"))
    | some user =>
      if user.passwordHash != hashPassword password then
        (d, some (.auth "Invalid username or password"))
      else (setCurrentUser d (some username), none)

/-- AuthManager.register: field validation, duplicate check, user storage
with the hashed password, then implicit login. -/
def register (d : Data) (username password displayName : String)
    (now : Instant) : Data × Option AppError :=
  if username == "" || password == "" || displayName == "" then
    (d, some (.validation "All fields are required"))
  else if username.length < 3 then
    (d, some (.validation "Username must be at least 3 characters"))
  else if password.length < 6 then
    (d, some (.validation "Password must be at least 6 characters"))
  else if (getUser d username).isSome then
    (d, some (.conflict "Username already exists"))
  else
    let res := addUser d username displayName (hashPassword password) now
    if res.2 then login res.1 username password
    else (res.1, some (.storageFailure "Failed to create account"))

/-- NotificationManager.cancelTaskNotifications: revoke the three timer
keys of a task.  The scheduled-reminder map is modelled by its key list. -/
def cancelTaskNotifications (sched : List String) (taskId : String) :
    List String :=
  sched.filter (fun k =>
    !(k == taskId ++ "-1h") && !(k == taskId ++ "-5m") &&
      !(k == taskId ++ "-start"))

/-- NotificationManager.scheduleTaskNotifications: a null or completed
task is ignored; otherwise the task's pending keys are cancelled and a
timer is recorded for each reminder offset whose target instant
(start minus 60, 5 or 0 minutes) is still strictly in the future. -/
def scheduleTaskNotifications (sched : List String) (task : Option Task)
    (now : Instant) : List String :=
  match task with
  | none => sched
  | some t =>
    if t.completed then sched
    else
      let taskDateTime : Int := Instant.toMin ⟨t.date, t.startTime⟩
      let nowMin : Int := now.toMin
      let s1 := cancelTaskNotifications sched t.id
      let s2 := if nowMin < taskDateTime - 60 then s1 ++ [t.id ++ "-1h"] else s1
      let s3 := if nowMin < taskDateTime - 5 then s2 ++ [t.id ++ "-5m"] else s2
      if nowMin < taskDateTime then s3 ++ [t.id ++ "-start"] else s3

/-- NotificationManager.scheduleAllTaskNotifications: clear every timer,
then schedule each incomplete task of the active user. -/
def scheduleAllTaskNotifications (d : Data) (now : Instant) : List String :=
  let incompleteTasks := (getTasks d).filter (fun t => !t.completed)
  incompleteTasks.foldl
    (fun sched t => scheduleTaskNotifications sched (some t) now) []

/-- A JSON value, the parse result of the stored blob. -/
inductive JVal where
  | jnull
  | jbool (b : Bool)
  | jnum (n : Int)
  | jstr (s : String)
  | jarr (xs : List JVal)
  | jobj (fields : List (String × JVal))
  deriving Repr

/-- JavaScript truthiness of a parsed JSON value. -/
def truthy : JVal → Bool
  | .jnull => false
  | .jbool b => b
  | .jnum n => !(n == 0)
  | .jstr s => !(s == "")
  | .jarr _ => true
  | .jobj _ => true

/-- The canonical empty document written by StorageManager's
initial-storage routine. -/
def initialDataJ : JVal :=
  .jobj [("users", .jobj []), ("currentUser", .jnull), ("tasks", .jarr []),
         ("badges", .jarr []),
         ("settings", .jobj [("theme", .jstr "light"),
                             ("notifications", .jbool true)])]

/-- The storage slot: either a string that fails to parse as JSON, or a
successfully parsed value. -/
inductive Blob where
  | malformed (raw : String)
  | stored (v : JVal)
  deriving Repr

/-- StorageManager.getData: `JSON.parse(...) || {}` guarded by a catch
that rewrites the slot to the canonical empty document and retries.
Returns the parsed value together with the (possibly rewritten) slot. -/
def getData : Blob → JVal × Blob
  | .malformed _ => (initialDataJ, .stored initialDataJ)
  | .stored v => (if truthy v then v else .jobj [], .stored v)

/-- Field lookup in a parsed JSON object. -/
def lookupField (fields : List (String × JVal)) (key : String) : Option JVal :=
  (fields.find? (fun p => p.1 == key)).map Prod.snd

/-- Modelled from the spec: a well-formed persisted document per §6 —
an object with `users` an object, `currentUser` null or a string, `tasks`
and `badges` arrays, and `settings` an object. -/
def isWellFormedDoc : JVal → Bool
  | .jobj fields =>
    (match lookupField fields "users" with
     | some (.jobj _) => true
     | _ => false) &&
    (match lookupField fields "currentUser" with
     | some .jnull => true
     | some (.jstr _) => true
     | _ => false) &&
    (match lookupField fields "tasks" with
     | some (.jarr _) => true
     | _ => false) &&
    (match lookupField fields "badges" with
     | some (.jarr _) => true
     | _ => false) &&
    (match lookupField fields "settings" with
     | some (.jobj _) => true
     | _ => false)
  | _ => false

/-- A stored user record for bob with the hash of "secret1". -/
def bobUser : User :=
  { username := "bob", displayName := "Bob",
    passwordHash := hashPassword "secret1", createdAt := ⟨0, 0⟩ }

/-- Concrete document holding only the user bob, with no session. -/
def c9Data : Data :=
  { users := [("bob", bobUser)], currentUser := none }

/-- A completed task of user alice on day 100, used as a concrete input. -/
def aliceT1 : Task :=
  { id := "t1", userId := some "alice", title := "x",
    date := 100, startTime := 540, endTime := 600, createdAt := ⟨100, 0⟩,
    completed := true, completedAt := some ⟨100, 480⟩ }

/-- A dailyCompletion badge of alice earned on day 99 (the previous day). -/
def oldDaily : Badge :=
  { id := "dailyCompletion", title := "Daily Champion",
    userId := some "alice", earnedAt := ⟨99, 600⟩ }

/-- Concrete document: alice is active, her one task of day 100 is
completed, and she holds a dailyCompletion badge earned on day 99. -/
def c1Data : Data :=
  { currentUser := some "alice", tasks := [aliceT1], badges := [oldDaily] }

/-- A task of alice on day `d` with completion flag `c`, for streak
examples. -/
def dayTask (d : Int) (c : Bool) (i : String) : Task :=
  { id := i, userId := some "alice", date := d, completed := c,
    createdAt := ⟨d, 0⟩ }

/-- Concrete task list: days 100, 99, 98 fully completed, day 97 empty,
day 96 completed. -/
def exTasks : List Task :=
  [dayTask 100 true "a", dayTask 99 true "b", dayTask 98 true "c",
   dayTask 96 true "d"]

/-- A pending task of alice on day 100, used as a completion input. -/
def c3Task : Task :=
  { id := "t1", userId := some "alice", title := "x", date := 100,
    startTime := 540, endTime := 600, createdAt := ⟨100, 0⟩ }

/-- Concrete document holding one pending task of the active user. -/
def c3Data : Data :=
  { currentUser := some "alice", tasks := [c3Task] }

/-- Concrete document: alice already holds the firstTask badge. -/
def c5Data : Data :=
  { currentUser := some "alice", tasks := [aliceT1],
    badges := [{ id := "firstTask", title := "Getting Started",
                 userId := some "alice", earnedAt := ⟨100, 500⟩ }] }

/-- A pending task of alice on day 10 starting at minute 600, used as a
reminder-scheduling input. -/
def futTask : Task :=
  { id := "n1", userId := some "alice", date := 10, startTime := 600,
    endTime := 660, completed := false, createdAt := ⟨9, 0⟩ }

/-- Claim C1 (refuted by the code): in `c1Data` the active user's tasks
dated day 100 (today) are nonempty and all completed, and no
dailyCompletion badge with `earnedAt` on day 100 exists, so the claim
requires `checkDailyCompletionBadge` to grant a badge for day 100; yet
the badge list is unchanged, because `addBadge` rejects any badge whose
(id, user) pair already exists — here the dailyCompletion badge earned on
day 99 — defeating the per-day duplicate check coded in
`checkDailyCompletionBadge` itself. -/
theorem checkDailyCompletionBadge_blocked :
    (!((getTasks c1Data).filter (fun t => t.date == (100 : Int))).isEmpty
      && ((getTasks c1Data).filter (fun t => t.date == (100 : Int))).all
           (fun t => t.completed)) = true ∧
    ((getBadges c1Data).find? (fun b =>
        b.id == "dailyCompletion" && b.earnedAt.day == (100 : Int))) = none ∧
    (checkDailyCompletionBadge c1Data ⟨100, 700⟩).badges = c1Data.badges := by
  refine ⟨by decide, by decide, by decide⟩

/-- Claim C3 (counterexample): completing task t1 at minute 10 records
`completedAt` = minute 10, but a second `completeTask` call at minute 20
overwrites `completedAt` to minute 20 instead of leaving the first
timestamp in place. -/
theorem completeTask_not_idempotent :
    (((completeTask c3Data "t1" ⟨100, 10⟩).1.tasks.find?
        (fun t => t.id == "t1")).map (fun t => t.completedAt))
      = some (some ⟨100, 10⟩) ∧
    (((completeTask (completeTask c3Data "t1" ⟨100, 10⟩).1 "t1"
        ⟨100, 20⟩).1.tasks.find? (fun t => t.id == "t1")).map
          (fun t => t.completedAt))
      = some (some ⟨100, 20⟩) ∧
    some (Instant.mk 100 20) ≠ some (Instant.mk 100 10) := by
  refine ⟨by decide, by decide, by decide⟩

/-- Claim C10: a null task argument, or a task already completed, makes
`scheduleTaskNotifications` return the scheduled-reminder map unchanged:
no timer is created and no other task's reminders are touched. -/
theorem scheduleTaskNotifications_skips_completed (sched : List String)
    (t : Task) (now : Instant) (hc : t.completed = true) :
    scheduleTaskNotifications sched (some t) now = sched ∧
    scheduleTaskNotifications sched none now = sched := by
  constructor
  · simp [scheduleTaskNotifications, hc]
  · rfl

/-- Witness for C10 at a concrete completed task and nonempty map. -/
theorem scheduleTaskNotifications_skips_completed_witness :
    aliceT1.completed = true ∧
    (scheduleTaskNotifications ["z-1h"] (some aliceT1) ⟨100, 0⟩ = ["z-1h"] ∧
     scheduleTaskNotifications ["z-1h"] none ⟨100, 0⟩ = ["z-1h"]) :=
  ⟨by decide,
   scheduleTaskNotifications_skips_completed ["z-1h"] aliceT1 ⟨100, 0⟩
     (by decide)⟩

/-- Claim C7 (counterexample): the stored blob `null` parses as JSON, is
not a well-formed document, yet `getData` neither reinitialises the slot
nor returns the canonical empty document — it returns the bare empty
object `{}` and leaves the slot holding `null`. -/
theorem getData_illformed_counterexample :
    isWellFormedDoc .jnull = false ∧
    getData (.stored .jnull) = (.jobj [], .stored .jnull) ∧
    JVal.jobj [] ≠ initialDataJ := by
  refine ⟨rfl, rfl, ?_⟩
  intro h
  simp [initialDataJ] at h

/-- Claim C7 amended: only a blob that fails to parse as JSON makes
`getData` reinitialise storage and return the canonical empty document;
a blob that parses to a truthy value — well-formed document or not — is
returned as-is without reinitialisation, and a blob parsing to a falsy
value (such as JSON `null`) yields the bare empty object, again without
reinitialisation. -/
theorem getData_recovery_spec (raw : String) (v : JVal) :
    getData (.malformed raw) = (initialDataJ, .stored initialDataJ) ∧
    (truthy v = true → getData (.stored v) = (v, .stored v)) ∧
    (truthy v = false → getData (.stored v) = (.jobj [], .stored v)) := by
  refine ⟨rfl, ?_, ?_⟩ <;> intro h <;> simp [getData, h]

/-- Witness for C7's amended statement at concrete blobs. -/
theorem getData_recovery_spec_witness :
    getData (.malformed "not json") = (initialDataJ, .stored initialDataJ) ∧
    (truthy (.jobj [("foo", .jnum 1)]) = true ∧
      getData (.stored (.jobj [("foo", .jnum 1)]))
        = (.jobj [("foo", .jnum 1)], .stored (.jobj [("foo", .jnum 1)]))) ∧
    (truthy .jnull = false ∧
      getData (.stored .jnull) = (.jobj [], .stored .jnull)) :=
  ⟨(getData_recovery_spec "not json" .jnull).1,
   ⟨rfl, (getData_recovery_spec "not json" (.jobj [("foo", .jnum 1)])).2.1 rfl⟩,
   ⟨rfl, (getData_recovery_spec "not json" .jnull).2.2 rfl⟩⟩

/-- The loop of `checkCompletionStreak` computed against `streakRun`:
while the counter is still short of the requirement, the loop succeeds
exactly when the completed-day count accumulated before the first
incomplete day (within the remaining budget) closes the gap. -/
theorem streakLoop_eq_run (tasks : List Task) (required : Nat) :
    ∀ fuel : Nat, ∀ d : Int, ∀ streak : Nat, streak < required →
      streakLoop tasks required d fuel streak =
        decide (required ≤ streak + streakRun tasks d fuel) := by
  intro fuel
  induction fuel with
  | zero =>
    intro d streak h
    simp only [streakLoop, streakRun]
    symm
    rw [decide_eq_false_iff_not]
    omega
  | succ m ih =>
    intro d streak h
    simp only [streakLoop, streakRun]
    by_cases he : (tasks.filter (fun t => t.date == d)).isEmpty = true
    · simp only [he, if_true]
      exact ih (d - 1) streak h
    · simp only [if_neg he]
      by_cases ha :
          (tasks.filter (fun t => t.date == d)).all (fun t => t.completed)
            = true
      · simp only [ha, if_true]
        by_cases hr : required ≤ streak + 1
        · rw [if_pos hr]
          symm
          rw [decide_eq_true_iff]
          omega
        · rw [if_neg hr]
          rw [ih (d - 1) (streak + 1) (by omega)]
          rw [decide_eq_decide]
          omega
      · simp only [if_neg ha]
        symm
        rw [decide_eq_false_iff_not]
        omega

/-- Claim C2: `checkCompletionStreak tasks requiredDays today` scans at
most 365 days back from `today`, skipping empty days, counting fully
completed days, and stopping at the first day with an incomplete task; it
returns true exactly when the count of completed days accumulated before
that stopping point (`streakRun`) reaches `requiredDays`.  Stated for
the meaningful requirements `1 ≤ requiredDays` (the catalog uses 3 and
7); with `requiredDays = 0` the code still demands one completed day. -/
theorem checkCompletionStreak_spec (tasks : List Task) (requiredDays : Nat)
    (today : Int) (h : 1 ≤ requiredDays) :
    checkCompletionStreak tasks requiredDays today =
      decide (requiredDays ≤ streakRun tasks today 365) := by
  have := streakLoop_eq_run tasks requiredDays 365 today 0 (by omega)
  simpa [checkCompletionStreak] using this

/-- Witness for C2: days 100, 99, 98 completed with day 97 empty and day
96 completed yield a streak of 3 (the empty day is neutral). -/
theorem checkCompletionStreak_spec_witness :
    1 ≤ 3 ∧
    checkCompletionStreak exTasks 3 100 =
      decide (3 ≤ streakRun exTasks 100 365) :=
  ⟨by decide, checkCompletionStreak_spec exTasks 3 100 (by decide)⟩

/-- Appending different suffixes to the same string yields different
strings. -/
theorem append_right_ne (s : String) {a b : String} (h : a.data ≠ b.data) :
    s ++ a ≠ s ++ b := by
  intro he
  apply h
  have hd := congrArg String.data he
  rw [String.data_append, String.data_append] at hd
  exact List.append_cancel_left hd

/-- After `cancelTaskNotifications`, none of the task's three reminder
keys remains in the map. -/
theorem count_cancel (sched : List String) (taskId suffix : String)
    (hsuf : suffix = "-1h" ∨ suffix = "-5m" ∨ suffix = "-start") :
    (cancelTaskNotifications sched taskId).count (taskId ++ suffix) = 0 := by
  rw [List.count_eq_zero]
  intro hmem
  have h2 := (List.mem_filter.mp hmem).2
  rcases hsuf with h | h | h <;> subst h <;> simp at h2

/-- The scheduled map produced for an incomplete task: the task's old
keys are cancelled, then one key is appended per reminder offset whose
target instant is still strictly in the future. -/
theorem scheduleTaskNotifications_eq (sched : List String) (t : Task)
    (now : Instant) (hc : t.completed = false) :
    scheduleTaskNotifications sched (some t) now =
      cancelTaskNotifications sched t.id ++
        ((if now.toMin < Instant.toMin ⟨t.date, t.startTime⟩ - 60
            then [t.id ++ "-1h"] else []) ++
         ((if now.toMin < Instant.toMin ⟨t.date, t.startTime⟩ - 5
            then [t.id ++ "-5m"] else []) ++
          (if now.toMin < Instant.toMin ⟨t.date, t.startTime⟩
            then [t.id ++ "-start"] else []))) := by
  simp only [scheduleTaskNotifications, hc, Bool.false_eq_true, if_false]
  split_ifs <;> simp [List.append_assoc]

/-- Claim C4: for an incomplete task, `scheduleTaskNotifications` records
exactly one timer per reminder kind whose target instant (task start
minus 60, 5 or 0 minutes) is still in the future, silently skipping past
instants; hence a task starting more than 60 minutes from now gets 3
timers, one starting in 30 minutes gets 2, and one in the past gets 0. -/
theorem scheduleTaskNotifications_counts (sched : List String) (t : Task)
    (now : Instant) (hc : t.completed = false) :
    ((scheduleTaskNotifications sched (some t) now).count (t.id ++ "-1h")
      = if now.toMin < Instant.toMin ⟨t.date, t.startTime⟩ - 60
          then 1 else 0) ∧
    ((scheduleTaskNotifications sched (some t) now).count (t.id ++ "-5m")
      = if now.toMin < Instant.toMin ⟨t.date, t.startTime⟩ - 5
          then 1 else 0) ∧
    ((scheduleTaskNotifications sched (some t) now).count (t.id ++ "-start")
      = if now.toMin < Instant.toMin ⟨t.date, t.startTime⟩ then 1 else 0) ∧
    (now.toMin + 60 < Instant.toMin ⟨t.date, t.startTime⟩ →
      (scheduleTaskNotifications sched (some t) now).count (t.id ++ "-1h") +
      (scheduleTaskNotifications sched (some t) now).count (t.id ++ "-5m") +
      (scheduleTaskNotifications sched (some t) now).count (t.id ++ "-start")
        = 3) ∧
    (Instant.toMin ⟨t.date, t.startTime⟩ = now.toMin + 30 →
      (scheduleTaskNotifications sched (some t) now).count (t.id ++ "-1h") +
      (scheduleTaskNotifications sched (some t) now).count (t.id ++ "-5m") +
      (scheduleTaskNotifications sched (some t) now).count (t.id ++ "-start")
        = 2) ∧
    (Instant.toMin ⟨t.date, t.startTime⟩ ≤ now.toMin →
      (scheduleTaskNotifications sched (some t) now).count (t.id ++ "-1h") +
      (scheduleTaskNotifications sched (some t) now).count (t.id ++ "-5m") +
      (scheduleTaskNotifications sched (some t) now).count (t.id ++ "-start")
        = 0) := by
  have hne15 : t.id ++ "-1h" ≠ t.id ++ "-5m" := append_right_ne t.id (by decide)
  have hne1s : t.id ++ "-1h" ≠ t.id ++ "-start" :=
    append_right_ne t.id (by decide)
  have hne5s : t.id ++ "-5m" ≠ t.id ++ "-start" :=
    append_right_ne t.id (by decide)
  have z1 := count_cancel sched t.id "-1h" (Or.inl rfl)
  have z5 := count_cancel sched t.id "-5m" (Or.inr (Or.inl rfl))
  have zs := count_cancel sched t.id "-start" (Or.inr (Or.inr rfl))
  set A := Instant.toMin ⟨t.date, t.startTime⟩ with hA
  have h1 : (scheduleTaskNotifications sched (some t) now).count
      (t.id ++ "-1h") = if now.toMin < A - 60 then 1 else 0 := by
    rw [scheduleTaskNotifications_eq sched t now hc, ← hA]
    by_cases c1 : now.toMin < A - 60 <;> by_cases c2 : now.toMin < A - 5 <;>
      by_cases c3 : now.toMin < A <;>
      simp [c1, c2, c3, List.count_append, List.count_cons, z1,
        hne15, hne1s, Ne.symm hne15, Ne.symm hne1s]
  have h5 : (scheduleTaskNotifications sched (some t) now).count
      (t.id ++ "-5m") = if now.toMin < A - 5 then 1 else 0 := by
    rw [scheduleTaskNotifications_eq sched t now hc, ← hA]
    by_cases c1 : now.toMin < A - 60 <;> by_cases c2 : now.toMin < A - 5 <;>
      by_cases c3 : now.toMin < A <;>
      simp [c1, c2, c3, List.count_append, List.count_cons, z5,
        hne15, hne5s, Ne.symm hne15, Ne.symm hne5s]
  have hs : (scheduleTaskNotifications sched (some t) now).count
      (t.id ++ "-start") = if now.toMin < A then 1 else 0 := by
    rw [scheduleTaskNotifications_eq sched t now hc, ← hA]
    by_cases c1 : now.toMin < A - 60 <;> by_cases c2 : now.toMin < A - 5 <;>
      by_cases c3 : now.toMin < A <;>
      simp [c1, c2, c3, List.count_append, List.count_cons, zs,
        hne1s, hne5s, Ne.symm hne1s, Ne.symm hne5s]
  refine ⟨h1, h5, hs, ?_, ?_, ?_⟩
  · intro hfar
    rw [h1, h5, hs, if_pos (by omega), if_pos (by omega), if_pos (by omega)]
  · intro h30
    rw [h1, h5, hs, if_neg (by omega), if_pos (by omega), if_pos (by omega)]
  · intro hpast
    rw [h1, h5, hs, if_neg (by omega), if_neg (by omega), if_neg (by omega)]

/-- Witness for C4 at a concrete task starting at minute 600 of day 10,
scheduled at minute 400 of day 10 (200 minutes early, hence 3 timers). -/
theorem scheduleTaskNotifications_counts_witness :
    futTask.completed = false ∧
    ((scheduleTaskNotifications ["other-1h"] (some futTask)
        ⟨10, 400⟩).count (futTask.id ++ "-1h")
      = if Instant.toMin ⟨10, 400⟩ <
            Instant.toMin ⟨futTask.date, futTask.startTime⟩ - 60
          then 1 else 0) ∧
    (Instant.toMin ⟨10, 400⟩ + 60 <
        Instant.toMin ⟨futTask.date, futTask.startTime⟩ →
      (scheduleTaskNotifications ["other-1h"] (some futTask)
          ⟨10, 400⟩).count (futTask.id ++ "-1h") +
      (scheduleTaskNotifications ["other-1h"] (some futTask)
          ⟨10, 400⟩).count (futTask.id ++ "-5m") +
      (scheduleTaskNotifications ["other-1h"] (some futTask)
          ⟨10, 400⟩).count (futTask.id ++ "-start") = 3) :=
  ⟨by decide,
   (scheduleTaskNotifications_counts ["other-1h"] futTask ⟨10, 400⟩
      (by decide)).1,
   (scheduleTaskNotifications_counts ["other-1h"] futTask ⟨10, 400⟩
      (by decide)).2.2.2.1⟩

/-- When a match exists, `updateFirst` rewrites exactly the first match
and the rewritten element is what a subsequent search finds. -/
theorem updateFirst_find (p : Task → Bool) (f : Task → Task)
    (hf : ∀ t, p t = true → p (f t) = true) :
    ∀ l : List Task, (l.find? p).isSome = true →
      ∃ t ts', l.find? p = some t ∧
        updateFirst p f l = some (ts', f t) ∧ ts'.find? p = some (f t) := by
  intro l
  induction l with
  | nil => intro h; simp [List.find?] at h
  | cons a l ih =>
    intro h
    by_cases hp : p a = true
    · refine ⟨a, f a :: l, ?_, ?_, ?_⟩
      · exact List.find?_cons_of_pos l hp
      · simp [updateFirst, hp]
      · exact List.find?_cons_of_pos l (hf a hp)
    · rw [List.find?_cons_of_neg l hp] at h
      obtain ⟨t, ts', h1, h2, h3⟩ := ih h
      refine ⟨t, a :: ts', ?_, ?_, ?_⟩
      · rw [List.find?_cons_of_neg l hp]; exact h1
      · simp [updateFirst, hp, h2]
      · rw [List.find?_cons_of_neg ts' hp]; exact h3

/-- Claim C3 amended: `completeTask` leaves `completed = true` but
refreshes `completedAt` on every call; after two calls the stored task
carries the second call's timestamp, not the first's. -/
theorem completeTask_twice_sets_latest (d : Data) (taskId : String)
    (n1 n2 : Instant)
    (h : (d.tasks.find? (fun t => t.id == taskId)).isSome = true) :
    ∃ t2,
      ((completeTask (completeTask d taskId n1).1 taskId n2).1.tasks.find?
        (fun t => t.id == taskId)) = some t2 ∧
      t2.completed = true ∧ t2.completedAt = some n2 := by
  have hf : ∀ t : Task, (t.id == taskId) = true →
      ((applyUpdates t { completed := some true, completedAt := some n1 }).id
        == taskId) = true := fun t ht => ht
  obtain ⟨t, ts', h1, h2, h3⟩ :=
    updateFirst_find (fun t => t.id == taskId)
      (fun t => applyUpdates t { completed := some true,
                                 completedAt := some n1 }) hf d.tasks h
  have hf2 : ∀ t : Task, (t.id == taskId) = true →
      ((applyUpdates t { completed := some true, completedAt := some n2 }).id
        == taskId) = true := fun t ht => ht
  obtain ⟨t2, ts2, k1, k2, k3⟩ :=
    updateFirst_find (fun t => t.id == taskId)
      (fun t => applyUpdates t { completed := some true,
                                 completedAt := some n2 }) hf2 ts'
      (by rw [h3]; rfl)
  refine ⟨applyUpdates t2 { completed := some true, completedAt := some n2 },
    ?_, rfl, rfl⟩
  have hstep2 : (completeTask (completeTask d taskId n1).1 taskId n2).1.tasks
      = ts2 := by
    simp [completeTask, updateTask, h2, k2]
  rw [hstep2]
  exact k3

/-- Witness for C3's amended statement: completing task t1 at minute 10
and then at minute 20 leaves `completedAt` = minute 20. -/
theorem completeTask_twice_sets_latest_witness :
    ((c3Data.tasks.find? (fun t => t.id == "t1")).isSome = true) ∧
    (∃ t2,
      ((completeTask (completeTask c3Data "t1" ⟨100, 10⟩).1 "t1"
        ⟨100, 20⟩).1.tasks.find? (fun t => t.id == "t1")) = some t2 ∧
      t2.completed = true ∧ t2.completedAt = some ⟨100, 20⟩) :=
  ⟨by decide,
   completeTask_twice_sets_latest c3Data "t1" ⟨100, 10⟩ ⟨100, 20⟩ (by decide)⟩

/-- Function `addBadge` never changes the active session. -/
theorem addBadge_currentUser (d : Data) (b : Badge) (now : Instant) :
    (addBadge d b now).1.currentUser = d.currentUser := by
  rw [addBadge]
  split <;> rfl

/-- Once some badge with a given id is held by the active user, `addBadge`
leaves the set of that user's badges with that id untouched: either the
incoming badge has a different id, or the per-(id, user) duplicate check
rejects it. -/
theorem addBadge_filter_preserved (d : Data) (badge : Badge) (now : Instant)
    (i : String) (u : Option String) (hu : d.currentUser = u)
    (hne : d.badges.filter (fun b => b.id == i && b.userId == u) ≠ []) :
    (addBadge d badge now).1.badges.filter
        (fun b => b.id == i && b.userId == u)
      = d.badges.filter (fun b => b.id == i && b.userId == u) := by
  by_cases hex : (d.badges.find? (fun b =>
      b.id == badge.id && b.userId == d.currentUser)).isSome = true
  · simp [addBadge, hex]
  · have hid : badge.id ≠ i := by
      intro he
      apply hex
      rw [List.find?_isSome]
      obtain ⟨b0, hb0⟩ := List.exists_mem_of_ne_nil _ hne
      obtain ⟨hb0mem, hb0p⟩ := List.mem_filter.mp hb0
      refine ⟨b0, hb0mem, ?_⟩
      rw [he, hu]
      exact hb0p
    simp only [addBadge, hex, if_neg, Bool.false_eq_true, if_false,
      List.filter_append]
    have hlast : (List.filter (fun b => b.id == i && b.userId == u)
        [{ badge with userId := d.currentUser, earnedAt := now }]) = [] := by
      simp [hid]
    rw [hlast, List.append_nil]

/-- The badge-granting fold of `checkAllBadges` preserves the session and
the set of (i, u)-badges once that set is nonempty. -/
theorem badgeFold_preserved (stats : TaskStats) (tasks : List Task)
    (now : Instant) (ids : List String) (i : String) (u : Option String) :
    ∀ defs : List BadgeDef, ∀ acc : Data, acc.currentUser = u →
      acc.badges.filter (fun b => b.id == i && b.userId == u) ≠ [] →
      ((defs.foldl (fun acc bd =>
          if ids.contains bd.id then acc
          else if bd.condition stats tasks now then awardBadge acc bd now
          else acc) acc).currentUser = u ∧
       (defs.foldl (fun acc bd =>
          if ids.contains bd.id then acc
          else if bd.condition stats tasks now then awardBadge acc bd now
          else acc) acc).badges.filter (fun b => b.id == i && b.userId == u)
        = acc.badges.filter (fun b => b.id == i && b.userId == u)) := by
  intro defs
  induction defs with
  | nil => intro acc hcu hne; exact ⟨hcu, rfl⟩
  | cons bd defs ih =>
    intro acc hcu hne
    simp only [List.foldl_cons]
    by_cases hskip : ids.contains bd.id = true
    · simp only [hskip, if_true]
      exact ih acc hcu hne
    · simp only [hskip, Bool.false_eq_true, if_false]
      by_cases hcond : bd.condition stats tasks now = true
      · simp only [hcond, if_true]
        have hpres := addBadge_filter_preserved acc bd.toBadge now i u hcu hne
        have hcu' : (awardBadge acc bd now).currentUser = u := by
          rw [awardBadge, addBadge_currentUser]; exact hcu
        have hne' : (awardBadge acc bd now).badges.filter
            (fun b => b.id == i && b.userId == u) ≠ [] := by
          rw [awardBadge, hpres]; exact hne
        obtain ⟨r1, r2⟩ := ih (awardBadge acc bd now) hcu' hne'
        refine ⟨r1, ?_⟩
        rw [r2, awardBadge, hpres]
      · simp only [hcond, Bool.false_eq_true, if_false]
        exact ih acc hcu hne

/-- One run of `checkAllBadges` preserves the session and the nonempty
set of (i, u)-badges. -/
theorem checkAllBadges_preserved (d : Data) (now : Instant) (i : String)
    (u : Option String) (hu : d.currentUser = u)
    (hne : d.badges.filter (fun b => b.id == i && b.userId == u) ≠ []) :
    (checkAllBadges d now).currentUser = u ∧
    (checkAllBadges d now).badges.filter (fun b => b.id == i && b.userId == u)
      = d.badges.filter (fun b => b.id == i && b.userId == u) := by
  rw [checkAllBadges]
  exact badgeFold_preserved (getTaskStats d now) (getTasks d) now
    ((getBadges d).map (fun b => b.id)) i u badgeDefinitions d hu hne

/-- Claim C5: badge granting is monotonic and duplicate-free for
non-daily ids: once a badge with a given (id, ownerUsername) exists,
running `checkAllBadges` any number of times leaves that user's badges
with that id exactly as they were — no duplicate is ever added. -/
theorem checkAllBadges_no_duplicates (d : Data) (now : Instant) (i : String)
    (u : Option String) (n : Nat) (hu : d.currentUser = u)
    (_hdaily : i ≠ "dailyCompletion")
    (hne : d.badges.filter (fun b => b.id == i && b.userId == u) ≠ []) :
    ((fun x => checkAllBadges x now)^[n] d).badges.filter
        (fun b => b.id == i && b.userId == u)
      = d.badges.filter (fun b => b.id == i && b.userId == u) := by
  induction n generalizing d with
  | zero => simp
  | succ m ih =>
    rw [Function.iterate_succ_apply]
    obtain ⟨hcu, hfb⟩ := checkAllBadges_preserved d now i u hu hne
    rw [ih (checkAllBadges d now) hcu (by rw [hfb]; exact hne), hfb]

/-- Witness for C5: alice already holds the firstTask badge in `c5Data`;
two runs of `checkAllBadges` leave her firstTask badges unchanged. -/
theorem checkAllBadges_no_duplicates_witness :
    c5Data.currentUser = some "alice" ∧
    "firstTask" ≠ "dailyCompletion" ∧
    c5Data.badges.filter (fun b =>
      b.id == "firstTask" && b.userId == some "alice") ≠ [] ∧
    ((fun x => checkAllBadges x ⟨100, 800⟩)^[2] c5Data).badges.filter
        (fun b => b.id == "firstTask" && b.userId == some "alice")
      = c5Data.badges.filter (fun b =>
          b.id == "firstTask" && b.userId == some "alice") :=
  ⟨rfl, by decide, by decide,
   checkAllBadges_no_duplicates c5Data ⟨100, 800⟩ "firstTask" (some "alice")
     2 rfl (by decide) (by decide)⟩

/-- Claim C6: `addTask` under an active session returns a task carrying
the input's fields, the fresh id, the active owner, `completed = false`
and `createdAt = now`, appends it to storage, and a subsequent
`getTasks` contains exactly that one task with the fresh id. -/
theorem addTask_spec (d : Data) (input : TaskInput) (newId : String)
    (now : Instant) (u : String) (hu : d.currentUser = some u)
    (hfresh : ∀ t ∈ d.tasks, t.id ≠ newId) :
    ((addTask d input newId now).2.id = newId ∧
     (addTask d input newId now).2.userId = some u ∧
     (addTask d input newId now).2.completed = false ∧
     (addTask d input newId now).2.title = input.title ∧
     (addTask d input newId now).2.description = input.description ∧
     (addTask d input newId now).2.priority = input.priority ∧
     (addTask d input newId now).2.date = input.date ∧
     (addTask d input newId now).2.startTime = input.startTime ∧
     (addTask d input newId now).2.endTime = input.endTime ∧
     (addTask d input newId now).2.createdAt = now) ∧
    (addTask d input newId now).1.tasks
      = d.tasks ++ [(addTask d input newId now).2] ∧
    (getTasks (addTask d input newId now).1).filter (fun t => t.id == newId)
      = [(addTask d input newId now).2] := by
  refine ⟨⟨rfl, ?_, rfl, rfl, rfl, rfl, rfl, rfl, rfl, rfl⟩, rfl, ?_⟩
  · simp [addTask, hu]
  · have e1 : (addTask d input newId now).1.tasks
        = d.tasks ++ [(addTask d input newId now).2] := rfl
    have e2 : (addTask d input newId now).1.currentUser = d.currentUser := rfl
    rw [getTasks, e1, e2, List.filter_append, List.filter_append]
    have hqnt : List.filter (fun t => t.userId == d.currentUser)
        [(addTask d input newId now).2] = [(addTask d input newId now).2] := by
      simp [addTask]
    have hpnt : List.filter (fun t => t.id == newId)
        [(addTask d input newId now).2] = [(addTask d input newId now).2] := by
      simp [addTask]
    have hnil : List.filter (fun t => t.id == newId)
        (List.filter (fun t => t.userId == d.currentUser) d.tasks) = [] := by
      rw [List.filter_eq_nil_iff]
      intro a ha
      have := hfresh a (List.mem_of_mem_filter ha)
      simp [this]
    rw [hqnt, hnil, hpnt, List.nil_append]

/-- Witness for C6: adding a task to `c9Data` under bob's session. -/
theorem addTask_spec_witness :
    ((addTask (setCurrentUser c9Data (some "bob"))
        { title := "write", date := 5, startTime := 60, endTime := 120 }
        "id9" ⟨5, 0⟩).2.id = "id9" ∧
     (addTask (setCurrentUser c9Data (some "bob"))
        { title := "write", date := 5, startTime := 60, endTime := 120 }
        "id9" ⟨5, 0⟩).2.userId = some "bob" ∧
     (addTask (setCurrentUser c9Data (some "bob"))
        { title := "write", date := 5, startTime := 60, endTime := 120 }
        "id9" ⟨5, 0⟩).2.completed = false ∧
     (addTask (setCurrentUser c9Data (some "bob"))
        { title := "write", date := 5, startTime := 60, endTime := 120 }
        "id9" ⟨5, 0⟩).2.title = "write" ∧
     (addTask (setCurrentUser c9Data (some "bob"))
        { title := "write", date := 5, startTime := 60, endTime := 120 }
        "id9" ⟨5, 0⟩).2.description = "" ∧
     (addTask (setCurrentUser c9Data (some "bob"))
        { title := "write", date := 5, startTime := 60, endTime := 120 }
        "id9" ⟨5, 0⟩).2.priority = "medium" ∧
     (addTask (setCurrentUser c9Data (some "bob"))
        { title := "write", date := 5, startTime := 60, endTime := 120 }
        "id9" ⟨5, 0⟩).2.date = 5 ∧
     (addTask (setCurrentUser c9Data (some "bob"))
        { title := "write", date := 5, startTime := 60, endTime := 120 }
        "id9" ⟨5, 0⟩).2.startTime = 60 ∧
     (addTask (setCurrentUser c9Data (some "bob"))
        { title := "write", date := 5, startTime := 60, endTime := 120 }
        "id9" ⟨5, 0⟩).2.endTime = 120 ∧
     (addTask (setCurrentUser c9Data (some "bob"))
        { title := "write", date := 5, startTime := 60, endTime := 120 }
        "id9" ⟨5, 0⟩).2.createdAt = ⟨5, 0⟩) ∧
    (addTask (setCurrentUser c9Data (some "bob"))
        { title := "write", date := 5, startTime := 60, endTime := 120 }
        "id9" ⟨5, 0⟩).1.tasks
      = (setCurrentUser c9Data (some "bob")).tasks ++
          [(addTask (setCurrentUser c9Data (some "bob"))
              { title := "write", date := 5, startTime := 60, endTime := 120 }
              "id9" ⟨5, 0⟩).2] ∧
    (getTasks (addTask (setCurrentUser c9Data (some "bob"))
        { title := "write", date := 5, startTime := 60, endTime := 120 }
        "id9" ⟨5, 0⟩).1).filter (fun t => t.id == "id9")
      = [(addTask (setCurrentUser c9Data (some "bob"))
            { title := "write", date := 5, startTime := 60, endTime := 120 }
            "id9" ⟨5, 0⟩).2] :=
  addTask_spec (setCurrentUser c9Data (some "bob"))
    { title := "write", date := 5, startTime := 60, endTime := 120 }
    "id9" ⟨5, 0⟩ "bob" rfl (by decide)

/-- Function `login` with a stored user whose hash mismatches fails with the
generic AuthError. -/
theorem login_fail_of_mismatch (d : Data) (username password : String)
    (hcond : (username == "" || password == "") = false) (user : User)
    (hgu : getUser d username = some user)
    (hne : user.passwordHash ≠ hashPassword password) :
    login d username password
      = (d, some (.auth "Invalid username or password")) := by
  rw [login, if_neg (by simp [hcond]), hgu]
  simp [bne_iff_ne, hne]

/-- Function `login` with a stored user whose hash matches sets the session. -/
theorem login_success (d : Data) (username password : String)
    (hcond : (username == "" || password == "") = false) (user : User)
    (hgu : getUser d username = some user)
    (heq : user.passwordHash = hashPassword password) :
    login d username password = (setCurrentUser d (some username), none) := by
  rw [login, if_neg (by simp [hcond]), hgu]
  simp [heq]

/-- Claim C9: with nonempty credentials, `login` yields one and the same
generic AuthError value both when the username is absent and when the
stored hash mismatches, leaving the document untouched; with a matching
hash it sets the session to the username and changes nothing else. -/
theorem login_spec (d : Data) (username password : String)
    (hu : username ≠ "") (hp : password ≠ "") :
    (getUser d username = none →
      login d username password
        = (d, some (.auth "Invalid username or password"))) ∧
    (∀ user, getUser d username = some user →
      user.passwordHash ≠ hashPassword password →
      login d username password
        = (d, some (.auth "Invalid username or password"))) ∧
    (∀ user, getUser d username = some user →
      user.passwordHash = hashPassword password →
      (login d username password).2 = none ∧
      (login d username password).1.currentUser = some username ∧
      (login d username password).1.users = d.users ∧
      (login d username password).1.tasks = d.tasks ∧
      (login d username password).1.badges = d.badges) := by
  have hcond : (username == "" || password == "") = false := by
    simp [hu, hp]
  refine ⟨?_, ?_, ?_⟩
  · intro hgu
    rw [login, if_neg (by simp [hcond]), hgu]
  · intro user hgu hne
    exact login_fail_of_mismatch d username password hcond user hgu hne
  · intro user hgu heq
    rw [login_success d username password hcond user hgu heq]
    exact ⟨rfl, rfl, rfl, rfl, rfl⟩

/-- Witness for C9: against `c9Data` (only bob registered), logging in as
an unknown user and logging in as bob with a wrong password both produce
the identical generic AuthError, and bob's correct password sets the
session. -/
theorem login_spec_witness :
    (login c9Data "nobody" "pw1234"
      = (c9Data, some (.auth "Invalid username or password"))) ∧
    (login c9Data "bob" "wrongpw"
      = (c9Data, some (.auth "Invalid username or password"))) ∧
    ((login c9Data "bob" "secret1").2 = none ∧
     (login c9Data "bob" "secret1").1.currentUser = some "bob" ∧
     (login c9Data "bob" "secret1").1.users = c9Data.users ∧
     (login c9Data "bob" "secret1").1.tasks = c9Data.tasks ∧
     (login c9Data "bob" "secret1").1.badges = c9Data.badges) :=
  ⟨(login_spec c9Data "nobody" "pw1234" (by decide) (by decide)).1 (by decide),
   (login_spec c9Data "bob" "wrongpw" (by decide) (by decide)).2.1 bobUser
     (by decide) (by decide),
   (login_spec c9Data "bob" "secret1" (by decide) (by decide)).2.2 bobUser
     (by decide) rfl⟩

/-- Claim C8: `register` rejects empty fields, short usernames and short
passwords with a ValidationError, rejects an existing username with a
ConflictError — in both cases leaving the document unchanged — and
otherwise stores the user with the hashed password and implicitly logs
the new user in. -/
theorem register_spec (d : Data) (username password displayName : String)
    (now : Instant) :
    ((username = "" ∨ password = "" ∨ displayName = "" ∨
        username.length < 3 ∨ password.length < 6) →
      (register d username password displayName now).1 = d ∧
      ((register d username password displayName now).2.map
        AppError.isValidationErr) = some true) ∧
    (username ≠ "" → password ≠ "" → displayName ≠ "" →
      ¬ username.length < 3 → ¬ password.length < 6 →
      (getUser d username).isSome = true →
      (register d username password displayName now).1 = d ∧
      ((register d username password displayName now).2.map
        AppError.isConflictErr) = some true) ∧
    (username ≠ "" → password ≠ "" → displayName ≠ "" →
      ¬ username.length < 3 → ¬ password.length < 6 →
      getUser d username = none →
      (register d username password displayName now).2 = none ∧
      (register d username password displayName now).1.users
        = d.users ++ [(username,
            { username := username, displayName := displayName,
              passwordHash := hashPassword password, createdAt := now })] ∧
      (register d username password displayName now).1.currentUser
        = some username ∧
      (register d username password displayName now).1.tasks = d.tasks ∧
      (register d username password displayName now).1.badges = d.badges) := by
  refine ⟨?_, ?_, ?_⟩
  · intro hval
    rw [register]
    by_cases h1 : (username == "" || password == "" || displayName == "")
        = true
    · rw [if_pos h1]; exact ⟨rfl, rfl⟩
    · have hns : ¬ username = "" ∧ ¬ password = "" ∧ ¬ displayName = "" := by
        simpa [not_or, and_assoc] using h1
      rw [if_neg h1]
      by_cases h2 : username.length < 3
      · rw [if_pos h2]; exact ⟨rfl, rfl⟩
      · rw [if_neg h2]
        by_cases h3 : password.length < 6
        · rw [if_pos h3]; exact ⟨rfl, rfl⟩
        · exfalso
          rcases hval with h | h | h | h | h
          exacts [hns.1 h, hns.2.1 h, hns.2.2 h, h2 h, h3 h]
  · intro hu hp hdn h3 h6 hex
    rw [register, if_neg (by simp [hu, hp, hdn]), if_neg h3, if_neg h6,
      if_pos hex]
    exact ⟨rfl, rfl⟩
  · intro hu hp hdn h3 h6 hnone
    have hfindnone : d.users.find? (fun p => p.1 == username) = none := by
      rw [getUser, Option.map_eq_none'] at hnone
      exact hnone
    have haddU : addUser d username displayName (hashPassword password) now
        = ({ d with users := d.users ++ [(username,
              { username := username, displayName := displayName,
                passwordHash := hashPassword password,
                createdAt := now })] }, true) := by
      rw [addUser, if_neg (by simp [hnone])]
    have hgu2 : getUser ({ d with users := d.users ++ [(username,
        { username := username, displayName := displayName,
          passwordHash := hashPassword password,
          createdAt := now })] } : Data) username
        = some { username := username, displayName := displayName,
                 passwordHash := hashPassword password, createdAt := now } := by
      rw [getUser]
      show (List.find? (fun p => p.1 == username)
        (d.users ++ [(username, _)])).map Prod.snd = _
      rw [List.find?_append, hfindnone, Option.none_or]
      simp [List.find?]
    have hreg : register d username password displayName now
        = login ({ d with users := d.users ++ [(username,
            { username := username, displayName := displayName,
              passwordHash := hashPassword password,
              createdAt := now })] }) username password := by
      rw [register, if_neg (show ¬ (username == "" || password == ""
          || displayName == "") = true by simp [hu, hp, hdn]),
        if_neg h3, if_neg h6, if_neg (by simp [hnone]), haddU]
      rfl
    rw [hreg, login_success _ username password (by simp [hu, hp]) _ hgu2 rfl]
    exact ⟨rfl, rfl, rfl, rfl, rfl⟩

/-- Witness for C8: a too-short username is rejected with a
ValidationError, re-registering bob is rejected with a ConflictError, and
registering carol stores her hashed password and logs her in. -/
theorem register_spec_witness :
    ((register c9Data "bo" "secret1" "Bob" ⟨0, 0⟩).1 = c9Data ∧
     ((register c9Data "bo" "secret1" "Bob" ⟨0, 0⟩).2.map
       AppError.isValidationErr) = some true) ∧
    ((register c9Data "bob" "secret1" "Bob" ⟨0, 0⟩).1 = c9Data ∧
     ((register c9Data "bob" "secret1" "Bob" ⟨0, 0⟩).2.map
       AppError.isConflictErr) = some true) ∧
    ((register c9Data "carol" "secret2" "Carol" ⟨1, 0⟩).2 = none ∧
     (register c9Data "carol" "secret2" "Carol" ⟨1, 0⟩).1.users
       = c9Data.users ++ [("carol",
           { username := "carol", displayName := "Carol",
             passwordHash := hashPassword "secret2", createdAt := ⟨1, 0⟩ })] ∧
     (register c9Data "carol" "secret2" "Carol" ⟨1, 0⟩).1.currentUser
       = some "carol" ∧
     (register c9Data "carol" "secret2" "Carol" ⟨1, 0⟩).1.tasks
       = c9Data.tasks ∧
     (register c9Data "carol" "secret2" "Carol" ⟨1, 0⟩).1.badges
       = c9Data.badges) :=
  ⟨(register_spec c9Data "bo" "secret1" "Bob" ⟨0, 0⟩).1
     (Or.inr (Or.inr (Or.inr (Or.inl (by decide))))),
   (register_spec c9Data "bob" "secret1" "Bob" ⟨0, 0⟩).2.1
     (by decide) (by decide) (by decide) (by decide) (by decide) (by decide),
   (register_spec c9Data "carol" "secret2" "Carol" ⟨1, 0⟩).2.2
     (by decide) (by decide) (by decide) (by decide) (by decide) (by decide)⟩

end MissionMonitor
